import Mathlib

/-!
Shallow embedding of the DocNexus upload → transcribe → analyze pipeline.

Sources embedded here:
- `src/server/routes/upload.js` — multer `fileFilter`, the upload handler,
  `processTranscription`, `processAIAnalysis`, and the retry route.
- `src/unnamed/part_009` — the upload-route variant with the duplicate check
  and `setImmediate` pipeline kick-off (its handler is the one modelled for
  `submit`, since it contains the dedup logic the spec describes).
- `src/unnamed/part_011` — `OpenAIService.transcribeAudio` (the only
  definition of `transcribeAudio` in the repository) with its bounded
  network-error retry loop.
- `src/server/services/openaiService.js` — `analyzeSentiment` and
  `extractKeyInsights` with their defensive JSON normalization.

JavaScript values are modelled as follows: strings are `String`, JS dates and
`Date.now()` values are `Int` (epoch milliseconds), parsed JSON values are the
`Json` inductive below, a JS `undefined` field read is `Option.none`, and a
thrown JS error is the `.error` side of `Except`.
-/

/-- A JSON value, the result of a successful `JSON.parse`. -/
inductive Json where
  | str (s : String)
  | num (n : ℚ)
  | bool (b : Bool)
  | null
  | arr (xs : List Json)
  | obj (fields : List (String × Json))

/-- Field lookup on a JSON value: `j[name]` in JS. `none` models `undefined`
(non-objects and missing fields). -/
def Json.getField : Json → String → Option Json
  | .obj fields, name =>
    match fields.find? (fun f => f.1 = name) with
    | some f => some f.2
    | none => none
  | _, _ => none

/-- `Array.isArray` on a JSON value. -/
def Json.isArr : Json → Bool
  | .arr _ => true
  | _ => false

/-- JS truthiness of a JSON value (`[]` and `{}` are truthy). -/
def Json.truthy : Json → Bool
  | .str s => s ≠ ""
  | .num n => n ≠ 0
  | .bool b => b
  | .null => false
  | .arr _ => true
  | .obj _ => true

/-- `a || b` on JSON values: `b` when `a` is falsy. -/
def Json.orDefault (a b : Json) : Json := if a.truthy then a else b

/-- `x || d` on strings (`""` is the only falsy string). -/
def strOr (s d : String) : String := if s = "" then d else s

/-- Lower-casing of a string, modelling JS `toLowerCase` on ASCII data. -/
def lowerStr (s : String) : String := String.mk (s.data.map Char.toLower)

/-- The suffix of `cs` after the last occurrence of `c` (all of `cs` when `c`
does not occur); used for the basename step of `path.extname`. -/
def afterLastChar (c : Char) (cs : List Char) : List Char :=
  cs.foldl (fun acc x => if x = c then [] else acc ++ [x]) []

/-- The extension (from the last dot, inclusive) of a list of characters, when
a dot occurs; used by `extnameOfBase` for every position except the first. -/
def extFromLastDot : List Char → Option (List Char)
  | [] => none
  | c :: cs =>
    match extFromLastDot cs with
    | some e => some e
    | none => if c = '.' then some ('.' :: cs) else none

/-- Extension of a basename per Node `path.extname`: the substring from the
last `.`, except that a dot in the very first position does not count
(`".hidden"` has no extension). -/
def extnameOfBase : List Char → List Char
  | [] => []
  | _ :: rest =>
    match extFromLastDot rest with
    | some e => e
    | none => []

/-- Node `path.extname`: extension of the final path segment, including the
leading dot (`".mp3"`), or `""`. -/
def extname (s : String) : String :=
  String.mk (extnameOfBase (afterLastChar '/' s.data))

/-- `transcriptionStatus` values used by the pipeline
(`src/server/routes/upload.js`, `src/unnamed/part_009`). -/
inductive Status where
  | pending
  | processing
  | completed
  | failed
  | retryableFailed
  deriving DecidableEq, Repr

/-- The string stored/returned for each status value. -/
def statusStr : Status → String
  | .pending => "pending"
  | .processing => "processing"
  | .completed => "completed"
  | .failed => "failed"
  | .retryableFailed => "retryable_failed"

/-- `audio` / `video` per the Transcript schema `fileType` enum. -/
inductive MediaKind where
  | audio
  | video
  deriving DecidableEq, Repr

/-- One entry of the `processingErrors` array of the Transcript schema. -/
structure ProcErr where
  error : String
  timestamp : Int
  deriving Repr

/-- The Transcript document fields touched by the upload/processing pipeline
(`src/server/models/Transcript.js`; schema defaults are the field defaults).
`sentimentAnalysis`, `keyInsights` and `actionItems` are `Option`s whose
`none` represents the untouched schema default. -/
structure Recording where
  id : Nat
  originalFileName : String
  fileUrl : String
  fileKey : String
  fileSize : Nat
  fileType : MediaKind
  mimeType : String
  meetingDate : Int
  hcpName : String
  hcpSpecialty : String
  meetingDuration : Nat
  createdBy : String
  organization : String
  transcriptionStatus : Status
  rawTranscript : String := ""
  transcriptionConfidence : Nat := 0
  sentimentAnalysis : Option Json := none
  keyInsights : Option Json := none
  actionItems : Option Json := none
  processingErrors : List ProcErr := []
  processingStartTime : Option Int := none
  processingEndTime : Option Int := none
  createdAt : Int

/-! ## Upload validation (`fileFilter` and `determineFileType`) -/

/-- `allowedTypes` of `fileFilter` (`src/server/routes/upload.js:28`). -/
def allowedTypes : List String :=
  ["audio/mpeg", "audio/wav", "audio/mp4", "video/mp4", "video/quicktime", "video/x-msvideo"]

/-- `allowedExtensions` of `fileFilter` (`src/server/routes/upload.js:29`). -/
def allowedExtensions : List String :=
  [".mp3", ".wav", ".m4a", ".mp4", ".avi", ".mov"]

/-- The `req.file` object produced by multer. -/
structure FileInfo where
  originalname : String
  mimetype : String
  size : Nat
  deriving Repr

/-- multer `fileFilter` (`src/server/routes/upload.js:27-38`): accept when the
mimetype is allowed or the lower-cased extension is allowed. -/
def fileFilterAccepts (f : FileInfo) : Bool :=
  allowedTypes.contains f.mimetype
    || allowedExtensions.contains (lowerStr (extname f.originalname))

/-- `fileType` determination (`src/server/routes/upload.js:128-129`,
`src/unnamed/part_009:138-139`): the dotted extension is tested against a
dot-less list. -/
def determineFileType (originalname : String) : MediaKind :=
  let fileExtension := lowerStr (extname originalname)
  if ["mp3", "wav", "m4a"].contains fileExtension then .audio else .video

/-! ## The submit operation (`router.post('/')`, `src/unnamed/part_009:78-187`) -/

/-- The multipart request as the handler sees it. An absent text field is
modelled as `""` (both are falsy to the `!field` checks). -/
structure UploadRequest where
  file : Option FileInfo
  hcpName : String
  hcpSpecialty : String
  meetingDate : String
  createdBy : String := ""
  organization : String := ""

/-- The Record Store: Transcript documents plus the next generated id. -/
structure Store where
  recs : List Recording
  nextId : Nat

/-- Request-independent inputs of one submit call: the clock, date parsing,
and the Media Store outcome. -/
structure SubmitEnv where
  now : Int
  parseDate : String → Int
  storageOk : Bool
  storedUrl : String
  storedKey : String

/-- Branch (a) of the duplicate query (`src/unnamed/part_009:102-107`):
identical `originalFileName` + `meetingDate` + `hcpName` + `hcpSpecialty`. -/
def dupMatchExact (env : SubmitEnv) (req : UploadRequest) (fn : String) (r : Recording) : Bool :=
  r.originalFileName = fn
    && r.meetingDate = env.parseDate req.meetingDate
    && r.hcpName = req.hcpName
    && r.hcpSpecialty = req.hcpSpecialty

/-- Branch (b) of the duplicate query (`src/unnamed/part_009:108-112`): same
`originalFileName` created within the last two minutes. -/
def dupMatchRecent (env : SubmitEnv) (fn : String) (r : Recording) : Bool :=
  r.originalFileName = fn && r.createdAt ≥ env.now - 2 * 60 * 1000

/-- The `$or` duplicate predicate of the `findOne` call
(`src/unnamed/part_009:100-114`). -/
def dupPred (env : SubmitEnv) (req : UploadRequest) (fn : String) (r : Recording) : Bool :=
  dupMatchExact env req fn r || dupMatchRecent env fn r

/-- The JSON body of the submit response (fields used by the claims). -/
structure SubmitResponse where
  httpStatus : Nat
  success : Bool
  transcriptId : Option Nat := none
  statusField : Option String := none
  errMsg : String := ""
  deriving Repr

/-- Result of one submit call: the response, the store afterwards, and the
recording id handed to `setImmediate(processTranscription ...)` if any. -/
structure SubmitOut where
  resp : SubmitResponse
  store : Store
  scheduled : Option Nat := none

/-- The Transcript document created by the handler
(`src/unnamed/part_009:142-156`). -/
def mkRecording (env : SubmitEnv) (req : UploadRequest) (f : FileInfo) (newId : Nat) : Recording :=
  { id := newId
    originalFileName := f.originalname
    fileUrl := env.storedUrl
    fileKey := env.storedKey
    fileSize := f.size
    fileType := determineFileType f.originalname
    mimeType := f.mimetype
    meetingDate := env.parseDate req.meetingDate
    hcpName := req.hcpName
    hcpSpecialty := req.hcpSpecialty
    meetingDuration := 0
    createdBy := strOr req.createdBy "system"
    organization := strOr req.organization "DocNexus.ai"
    transcriptionStatus := .pending
    createdAt := env.now }

/-- The upload handler (`src/unnamed/part_009:78-187`) behind the multer
middleware: file-filter rejection and missing-field rejection return 400 with
no store change; a duplicate returns 200 with the existing id and status; a
storage failure returns 500; otherwise the Transcript is created with status
`pending`, the pipeline is scheduled, and the response is 201 with the literal
status string `"processing"`. -/
def submit (env : SubmitEnv) (req : UploadRequest) (s : Store) : SubmitOut :=
  match req.file with
  | none =>
    { resp := { httpStatus := 400, success := false, errMsg := "No file uploaded" }, store := s }
  | some f =>
    if ¬ fileFilterAccepts f then
      { resp := { httpStatus := 400, success := false
                  errMsg := "Invalid file type. Only audio and video files are allowed." }
        store := s }
    else if req.hcpName = "" || req.hcpSpecialty = "" || req.meetingDate = "" then
      { resp := { httpStatus := 400, success := false
                  errMsg := "Missing required fields: hcpName, hcpSpecialty, meetingDate" }
        store := s }
    else
      match s.recs.find? (dupPred env req f.originalname) with
      | some existing =>
        { resp := { httpStatus := 200, success := true
                    transcriptId := some existing.id
                    statusField := some (statusStr existing.transcriptionStatus) }
          store := s }
      | none =>
        if ¬ env.storageOk then
          { resp := { httpStatus := 500, success := false, errMsg := "File upload failed" }
            store := s }
        else
          let created := mkRecording env req f s.nextId
          { resp := { httpStatus := 201, success := true
                      transcriptId := some created.id
                      statusField := some "processing" }
            store := { recs := s.recs ++ [created], nextId := s.nextId + 1 }
            scheduled := some created.id }

/-! ## Transcription service (`OpenAIService.transcribeAudio`,
`src/unnamed/part_011:548-631`) -/

/-- Whether `needle` is a leading segment of `hay`. -/
def leadsList : List Char → List Char → Bool
  | [], _ => true
  | _ :: _, [] => false
  | a :: as, b :: bs => a = b && leadsList as bs

/-- Whether `needle` occurs inside `hay`. -/
def occursIn (needle : List Char) : List Char → Bool
  | [] => leadsList needle []
  | c :: cs => leadsList needle (c :: cs) || occursIn needle cs

/-- JS `hay.includes(needle)` on strings. -/
def strIncludes (hay needle : String) : Bool := occursIn needle.data hay.data

/-- A thrown JS error as seen by the retry loop: its `message`, `code`, and
`cause.code` (the last two are `""` when absent). -/
structure JsError where
  message : String
  code : String := ""
  causeCode : String := ""
  deriving Repr

/-- The network-error test of the retry loop (`src/unnamed/part_011:606`):
`error.code === 'ECONNRESET' || error.message?.includes('ECONNRESET') ||
error.message?.includes('Connection error') || error.cause?.code === 'ECONNRESET'`. -/
def isNetworkError (e : JsError) : Bool :=
  e.code = "ECONNRESET"
    || strIncludes e.message "ECONNRESET"
    || strIncludes e.message "Connection error"
    || e.causeCode = "ECONNRESET"

/-- Outcome of one Whisper API call (`openai.audio.transcriptions.create`),
indexed by attempt number: either a transcription or a thrown error. -/
inductive ProviderOutcome where
  | ok (text : String) (duration : Nat) (confidence : Nat)
  | err (e : JsError)
  deriving Repr

/-- The object `transcribeAudio` resolves with: the success object of
`src/unnamed/part_011:595-602` or the failure object of lines 621-624. The
failure object carries no `retryable` property, so reading
`transcriptionResult.retryable` yields `undefined`; `retryable := false`
records that. -/
structure TranscribeResult where
  success : Bool
  text : String := ""
  duration : Nat := 0
  confidence : Nat := 0
  retryable : Bool := false
  error : String := ""
  deriving Repr

/-- A `transcribeAudio` run together with its observable retry behaviour:
how many API calls were made and which backoff sleeps (ms) happened. -/
structure TranscribeRun where
  result : TranscribeResult
  calls : Nat
  waits : List Nat
  deriving Repr

/-- `maxRetries` of `transcribeAudio` (`src/unnamed/part_011:551`). -/
def maxRetries : Nat := 2

/-- The `while (attempt < maxRetries)` loop of `transcribeAudio`
(`src/unnamed/part_011:583-618`): on success return the transcription; on a
network error with `attempt < maxRetries - 1` sleep `1000 * 2 ^ attempt` ms
and continue; otherwise break. `fuel` is `maxRetries - attempt`, so fuel 0 is
the loop exit; both the break and the loop exit fall through to the failure
return of lines 621-624. -/
def transcribeLoop (provider : Nat → ProviderOutcome) (attempt : Nat) (fuel : Nat)
    (calls : Nat) (waits : List Nat) (lastErr : String) : TranscribeRun :=
  match fuel with
  | 0 => { result := { success := false, error := lastErr }, calls := calls, waits := waits }
  | fuel + 1 =>
    match provider attempt with
    | .ok text duration confidence =>
      { result := { success := true, text := text, duration := duration, confidence := confidence }
        calls := calls + 1, waits := waits }
    | .err e =>
      if isNetworkError e ∧ attempt < maxRetries - 1 then
        transcribeLoop provider (attempt + 1) fuel (calls + 1)
          (waits ++ [1000 * 2 ^ attempt]) e.message
      else
        { result := { success := false, error := e.message }
          calls := calls + 1, waits := waits }

/-- `OpenAIService.transcribeAudio` (`src/unnamed/part_011:548-631`), with the
Whisper API abstracted as `provider` (outcome per attempt index). -/
def transcribeAudio (provider : Nat → ProviderOutcome) : TranscribeRun :=
  transcribeLoop provider 0 maxRetries 0 [] ""

/-! ## Analysis service (`analyzeSentiment` / `extractKeyInsights`,
`src/server/services/openaiService.js:107-243`)

The chat-completion API call is abstracted as an
`Except JsError (Option Json)`: `.error e` is a thrown SDK error (rethrown by
the outer catch), `.ok parsed` is a returned completion whose message content
`JSON.parse`s to `parsed` (`none` when `JSON.parse` throws). Property access
on a non-object parse result is modelled as `undefined` (the JS `null`
TypeError path is not distinguished; no claim exercises it). -/

/-- Replace (or add) a field of a JSON object; identity on non-objects. -/
def Json.setField : Json → String → Json → Json
  | .obj fields, name, v =>
    if (fields.find? (fun f => f.1 = name)).isSome then
      .obj (fields.map (fun f => if f.1 = name then (f.1, v) else f))
    else
      .obj (fields ++ [(name, v)])
  | j, _, _ => j

/-- The fallback object built when `JSON.parse` of the sentiment completion
throws (`src/server/services/openaiService.js:142-150`). -/
def defaultSentimentJson : Json :=
  .obj [("overallSentiment", .str "neutral"), ("sentimentScore", .num 0),
        ("confidence", .num (1 / 2)), ("emotionalIndicators", .arr []),
        ("keyPhrases", .arr []), ("tone", .str "neutral"),
        ("summary", .str "Unable to analyze sentiment")]

/-- The fallback object built when `JSON.parse` of the insights completion
throws (`src/server/services/openaiService.js:216-221`). -/
def defaultInsightsJson : Json :=
  .obj [("keyInsights", .arr []), ("actionItems", .arr []),
        ("topics", .arr []), ("summary", .str "Unable to extract insights")]

/-- `{ success: true, ...result }`: the spread is last, so a `success` field
of the parsed object overrides the literal `true`. -/
def spreadSuccess (result : Json) : Bool :=
  match result.getField "success" with
  | some v => v.truthy
  | none => true

/-- String interpolation of a possibly-`undefined` JSON field, for
`${result.error}`-style template strings. Only its presence in an error
message matters to the claims, not its exact rendering of non-strings. -/
def jsFieldStr (v : Option Json) : String :=
  match v with
  | none => "undefined"
  | some (.str s) => s
  | some .null => "null"
  | some _ => "[value]"

/-- Return value of `analyzeSentiment`: the success flag of the spread object
and the parsed (or fallback) result object. -/
structure SentimentResult where
  success : Bool
  result : Json

/-- `OpenAIService.analyzeSentiment` (`src/server/services/openaiService.js:107-167`):
rethrows SDK errors; a parse failure is replaced by `defaultSentimentJson`;
a non-array `emotionalIndicators` is replaced by `[]`. -/
def analyzeSentiment (api : Except JsError (Option Json)) : Except JsError SentimentResult :=
  match api with
  | .error e => .error e
  | .ok parsed =>
    let result := parsed.getD defaultSentimentJson
    let result :=
      match result.getField "emotionalIndicators" with
      | some (.arr _) => result
      | _ => result.setField "emotionalIndicators" (.arr [])
    .ok { success := spreadSuccess result, result := result }

/-- Return value of `extractKeyInsights`: the success flag of the spread
object, the validated `keyInsights` / `actionItems`, and the full result
object. -/
structure InsightsResult where
  success : Bool
  keyInsights : Json
  actionItems : Json
  result : Json

/-- `OpenAIService.extractKeyInsights` (`src/server/services/openaiService.js:174-243`):
rethrows SDK errors; a parse failure is replaced by `defaultInsightsJson`; a
non-array `keyInsights` or `actionItems` (including a string or a missing
field) is replaced by `[]` (lines 224-233). -/
def extractKeyInsights (api : Except JsError (Option Json)) : Except JsError InsightsResult :=
  match api with
  | .error e => .error e
  | .ok parsed =>
    let result := parsed.getD defaultInsightsJson
    let ki :=
      match result.getField "keyInsights" with
      | some (.arr xs) => Json.arr xs
      | _ => Json.arr []
    let ai :=
      match result.getField "actionItems" with
      | some (.arr xs) => Json.arr xs
      | _ => Json.arr []
    let result := (result.setField "keyInsights" ki).setField "actionItems" ai
    .ok { success := spreadSuccess result, keyInsights := ki, actionItems := ai, result := result }

/-! ## The asynchronous pipeline (`processTranscription` / `processAIAnalysis`,
`src/server/routes/upload.js:411-540`)

The pipeline is the only writer of its Recording, so it is modelled as the
list of store states after each `findByIdAndUpdate`: every atomic update
appends one state. A schema note: the Transcript `processingErrors` items
hold only `error` and `timestamp`, so the extra `retryable: true` property
pushed on the retryable branch is dropped by the schema and not modelled. -/

/-- The provider behaviour one pipeline run sees, plus the clock (every
`new Date()` of the run is modelled as the single instant `now`). -/
structure PipelineEnv where
  provider : Nat → ProviderOutcome
  sentimentApi : Except JsError (Option Json)
  insightsApi : Except JsError (Option Json)
  now : Int

/-- The `$push: processingErrors` of the `processAIAnalysis` catch block
(`src/server/routes/upload.js:531-538`); it changes no other field — in
particular not `transcriptionStatus`. -/
def pushAnalysisError (now : Int) (msg : String) (r : Recording) : Recording :=
  { r with processingErrors :=
      r.processingErrors ++ [{ error := "AI Analysis failed: " ++ msg, timestamp := now }] }

/-- The object persisted as `sentimentAnalysis`
(`src/server/routes/upload.js:511-520`): the named fields of the service
result (a missing field is stored as `null` here, standing for `undefined`). -/
def sentimentPersisted (result : Json) : Json :=
  .obj (["overall", "score", "confidence", "details", "explanations",
         "emotionalIndicators", "sentimentTrends", "contextFactors"].map
    (fun name => (name, (result.getField name).getD Json.null)))

/-- `processAIAnalysis` (`src/server/routes/upload.js:484-540`) as the list of
atomic Recording updates it performs, starting from the Recording `r` it
reads back. A thrown error (SDK failure or a falsy `success`) reaches the
catch block, which only appends to `processingErrors`; on success, sentiment,
insights and action items are persisted in one single update (lines 510-523,
with `insightsResult.keyInsights || []` coercions). -/
def processAIAnalysisStates (env : PipelineEnv) (r : Recording) : List Recording :=
  match analyzeSentiment env.sentimentApi with
  | .error e => [pushAnalysisError env.now e.message r]
  | .ok sres =>
    if ¬ sres.success then
      [pushAnalysisError env.now
        ("Sentiment analysis failed: " ++ jsFieldStr (sres.result.getField "error")) r]
    else
      match extractKeyInsights env.insightsApi with
      | .error e => [pushAnalysisError env.now e.message r]
      | .ok ires =>
        if ¬ ires.success then
          [pushAnalysisError env.now
            ("Insights extraction failed: " ++ jsFieldStr (ires.result.getField "error")) r]
        else
          [{ r with
              sentimentAnalysis := some (sentimentPersisted sres.result)
              keyInsights := some (ires.keyInsights.orDefault (.arr []))
              actionItems := some (ires.actionItems.orDefault (.arr [])) }]

/-- `processTranscription` (`src/server/routes/upload.js:411-478`) as the list
of atomic Recording updates: first status `processing`; then, depending on
the `transcribeAudio` outcome, either the success update (raw transcript,
status `completed`, duration — `duration || 0` is the identity here since
duration is a `Nat`) followed by the `processAIAnalysis` updates, or the
`retryable_failed` update (dead against `transcribeAudio`, whose failure
object has no `retryable` field), or the catch-block `failed` update. The
state after the initial status-`processing` update
(`src/server/routes/upload.js:416-419`) is `startedRec`. -/
def startedRec (env : PipelineEnv) (r0 : Recording) : Recording :=
  { r0 with transcriptionStatus := .processing, processingStartTime := some env.now }

/-- The state after the transcription-success update
(`src/server/routes/upload.js:446-452`): raw transcript, status `completed`,
confidence and duration (`duration || 0` is the identity here since duration
is a `Nat`), end time. -/
def transcribedRec (env : PipelineEnv) (r0 : Recording) : Recording :=
  { startedRec env r0 with
      rawTranscript := (transcribeAudio env.provider).result.text
      transcriptionStatus := .completed
      transcriptionConfidence := (transcribeAudio env.provider).result.confidence
      meetingDuration := (transcribeAudio env.provider).result.duration
      processingEndTime := some env.now }

/-- The state after the `retryable_failed` update
(`src/server/routes/upload.js:429-439`). -/
def retryableFailedRec (env : PipelineEnv) (r0 : Recording) : Recording :=
  { startedRec env r0 with
      transcriptionStatus := .retryableFailed
      processingEndTime := some env.now
      processingErrors := (startedRec env r0).processingErrors ++
        [{ error := (transcribeAudio env.provider).result.error, timestamp := env.now }] }

/-- The state after the catch-block `failed` update
(`src/server/routes/upload.js:463-472`); the thrown message was
`Transcription failed: ${transcriptionResult.error}`. -/
def failedRec (env : PipelineEnv) (r0 : Recording) : Recording :=
  { startedRec env r0 with
      transcriptionStatus := .failed
      processingEndTime := some env.now
      processingErrors := (startedRec env r0).processingErrors ++
        [{ error := "Transcription failed: " ++ (transcribeAudio env.provider).result.error
           timestamp := env.now }] }

def processTranscriptionStates (env : PipelineEnv) (r0 : Recording) : List Recording :=
  let run := transcribeAudio env.provider
  if run.result.success then
    startedRec env r0 :: transcribedRec env r0 ::
      processAIAnalysisStates env (transcribedRec env r0)
  else if run.result.retryable then
    [startedRec env r0, retryableFailedRec env r0]
  else
    [startedRec env r0, failedRec env r0]

/-- The Recording once the pipeline run has reached its terminal update. -/
def pipelineFinal (env : PipelineEnv) (r0 : Recording) : Recording :=
  (processTranscriptionStates env r0).getLastD r0

/-- Whether the analysis pass succeeds (no SDK error and truthy `success` on
both service results); exactly the condition under which
`processAIAnalysis` reaches its single persisting update. -/
def analysisOk (env : PipelineEnv) : Bool :=
  match analyzeSentiment env.sentimentApi with
  | .error _ => false
  | .ok sres =>
    sres.success &&
      match extractKeyInsights env.insightsApi with
      | .error _ => false
      | .ok ires => ires.success

/-! ## The retry route (`router.post('/:transcriptId/retry')`,
`src/server/routes/upload.js:312-362`) -/

/-- `Transcript.findById` over the store. -/
def findRec (s : Store) (id : Nat) : Option Recording :=
  s.recs.find? (fun r => r.id = id)

/-- Result of the retry route: the response, whether `processTranscription`
was kicked off, and the store as the handler leaves it (the handler itself
performs no update). -/
structure RetryOut where
  httpStatus : Nat
  success : Bool
  scheduled : Bool
  store : Store
  msg : String := ""

/-- The retry route: 404 for an unknown id; 400 when the status is neither
`retryable_failed` nor `failed`; 404 when the stored file no longer exists;
otherwise 200 and `processTranscription` is started. -/
def retryRoute (s : Store) (id : Nat) (fileExists : Bool) : RetryOut :=
  match findRec s id with
  | none =>
    { httpStatus := 404, success := false, scheduled := false, store := s
      msg := "Transcript not found" }
  | some t =>
    if t.transcriptionStatus ≠ .retryableFailed ∧ t.transcriptionStatus ≠ .failed then
      { httpStatus := 400, success := false, scheduled := false, store := s
        msg := "Transcript is not in a retryable state" }
    else if ¬ fileExists then
      { httpStatus := 404, success := false, scheduled := false, store := s
        msg := "Original file not found" }
    else
      { httpStatus := 200, success := true, scheduled := true, store := s
        msg := "Transcription retry started" }

/-- The `Array.isArray(result.keyInsights)` test applied to a parse outcome:
whether the provider response parsed and its `keyInsights` field is a list. -/
def keyInsightsFieldIsArray (parsed : Option Json) : Bool :=
  match parsed with
  | none => false
  | some j =>
    match j.getField "keyInsights" with
    | some (.arr _) => true
    | _ => false

/-! ## Concrete sample values (used to instantiate the theorems) -/

def sampleFile : FileInfo :=
  { originalname := "meeting1.mp3", mimetype := "audio/mpeg", size := 5 }

def oggFile : FileInfo :=
  { originalname := "track.ogg", mimetype := "audio/mpeg", size := 3 }

def sampleEnv : SubmitEnv :=
  { now := 1000000, parseDate := fun s => (s.length : Int), storageOk := true
    storedUrl := "/uploads/meeting1.mp3", storedKey := "uploads/meeting1.mp3" }

/-- `sampleEnv` thirty seconds later (inside the two-minute dedup window). -/
def sampleEnvLater : SubmitEnv := { sampleEnv with now := 1030000 }

def sampleReq : UploadRequest :=
  { file := some sampleFile, hcpName := "Dr. Smith", hcpSpecialty := "Cardiology"
    meetingDate := "2024-01-10" }

def oggReq : UploadRequest := { sampleReq with file := some oggFile }

def noNameReq : UploadRequest := { sampleReq with hcpName := "" }

def emptyStore : Store := { recs := [], nextId := 7 }

/-- The Recording `submit sampleEnv sampleReq emptyStore` creates. -/
def sampleRec : Recording := mkRecording sampleEnv sampleReq sampleFile 7

def completedRec : Recording := { sampleRec with transcriptionStatus := .completed }

def completedStore : Store := { recs := [completedRec], nextId := 8 }

def failedStore : Store :=
  { recs := [{ sampleRec with transcriptionStatus := .failed }], nextId := 8 }

def netError : JsError := { message := "Connection error: fetch failed" }

def badRequestError : JsError := { message := "bad request" }

/-- A provider that fails with a network error on every attempt. -/
def alwaysNetFail : Nat → ProviderOutcome := fun _ => .err netError

/-- A provider that fails with a non-network error on every attempt. -/
def alwaysHardFail : Nat → ProviderOutcome := fun _ => .err badRequestError

/-- A provider that fails retryably once, then succeeds. -/
def secondTryOk : Nat → ProviderOutcome :=
  fun n => if n = 0 then .err netError else .ok "hi" 42 0

/-- A provider that fails retryably twice, then would succeed on a third
attempt — the scenario of the spec's retry example. -/
def thirdTryOk : Nat → ProviderOutcome :=
  fun n => if n < 2 then .err netError else .ok "hi" 42 0

def okSentimentApi : Except JsError (Option Json) :=
  .ok (some (.obj [("overall", .str "positive"), ("score", .num 1)]))

def okInsightsApi : Except JsError (Option Json) :=
  .ok (some (.obj [("keyInsights", .arr [.str "insight"]), ("actionItems", .arr [])]))

/-- Malformed provider output: `keyInsights` is a string, not a list. -/
def badInsightsContent : Option Json := some (.obj [("keyInsights", .str "oops")])

/-- Everything succeeds: transcription returns "hello world" / 42 s. -/
def happyEnv : PipelineEnv :=
  { provider := fun _ => .ok "hello world" 42 0
    sentimentApi := okSentimentApi, insightsApi := okInsightsApi, now := 99 }

/-- Transcription succeeds, the sentiment SDK call throws. -/
def analysisFailEnv : PipelineEnv := { happyEnv with sentimentApi := .error { message := "boom" } }

/-- Transcription succeeds, the insights response is malformed. -/
def badInsightsEnv : PipelineEnv := { happyEnv with insightsApi := .ok badInsightsContent }

/-- The spec's retry scenario against the real loop: network error twice,
success available on the (never reached) third attempt. -/
def thirdTryEnv : PipelineEnv := { happyEnv with provider := thirdTryOk }

def secondTryEnv : PipelineEnv := { happyEnv with provider := secondTryOk }

def alwaysNetFailEnv : PipelineEnv := { happyEnv with provider := alwaysNetFail }

/-! ## Helper lemmas -/

/-- `extFromLastDot` only ever returns a list starting with a dot. -/
theorem extFromLastDot_starts_dot {cs e : List Char} (h : extFromLastDot cs = some e) :
    ∃ t, e = '.' :: t := by
  induction cs generalizing e with
  | nil => simp [extFromLastDot] at h
  | cons c rest ih =>
    cases hm : extFromLastDot rest with
    | some e2 =>
      simp only [extFromLastDot, hm] at h
      obtain ⟨t, ht⟩ := ih hm
      exact ⟨t, by rw [← Option.some_inj.mp h, ht]⟩
    | none =>
      simp only [extFromLastDot, hm] at h
      by_cases hc : c = '.'
      · rw [if_pos hc] at h
        exact ⟨rest, by rw [← Option.some_inj.mp h]⟩
      · rw [if_neg hc] at h
        exact absurd h (by simp)

/-- The extension of a basename is empty or starts with a dot. -/
theorem extnameOfBase_shape (cs : List Char) :
    extnameOfBase cs = [] ∨ ∃ t, extnameOfBase cs = '.' :: t := by
  cases cs with
  | nil => left; rfl
  | cons c rest =>
    simp only [extnameOfBase]
    cases hm : extFromLastDot rest with
    | some e =>
      right
      obtain ⟨t, ht⟩ := extFromLastDot_starts_dot hm
      exact ⟨t, ht⟩
    | none => left; rfl

/-- The dotted (or empty) extension never equals a dot-less name from
`['mp3', 'wav', 'm4a']`, so `determineFileType` is constantly `video`. -/
theorem determineFileType_video (name : String) : determineFileType name = .video := by
  unfold determineFileType extname
  rcases extnameOfBase_shape (afterLastChar '/' name.data) with h | ⟨t, h⟩
  · rw [h]; decide
  · rw [h]
    have hl : lowerStr (String.mk ('.' :: t)) = String.mk ('.' :: t.map Char.toLower) := by
      have hd : Char.toLower '.' = '.' := by decide
      simp [lowerStr, hd]
    have hc : (["mp3", "wav", "m4a"] : List String).contains
        (String.mk ('.' :: t.map Char.toLower)) = false := by
      simp [List.contains, String.ext_iff]
    simp only [hl, hc, Bool.false_eq_true, if_false]

/-- When the analysis pass succeeds, `processAIAnalysis` performs exactly one
update, which sets sentiment, insights and action items together and touches
nothing else. -/
theorem processAIAnalysisStates_ok (env : PipelineEnv) (r : Recording)
    (h : analysisOk env = true) :
    ∃ sres ires, analyzeSentiment env.sentimentApi = Except.ok sres ∧
      extractKeyInsights env.insightsApi = Except.ok ires ∧
      processAIAnalysisStates env r =
        [{ r with
            sentimentAnalysis := some (sentimentPersisted sres.result)
            keyInsights := some (ires.keyInsights.orDefault (.arr []))
            actionItems := some (ires.actionItems.orDefault (.arr [])) }] := by
  unfold analysisOk at h
  unfold processAIAnalysisStates
  cases hs : analyzeSentiment env.sentimentApi with
  | error e => rw [hs] at h; simp at h
  | ok sres =>
    rw [hs] at h
    simp only at h
    cases hsu : sres.success with
    | false => rw [hsu] at h; simp at h
    | true =>
      rw [hsu] at h
      simp only [Bool.true_and] at h
      cases hi : extractKeyInsights env.insightsApi with
      | error e => rw [hi] at h; simp at h
      | ok ires =>
        rw [hi] at h
        simp only at h
        simp only [hsu, hi, h, not_true, if_false, Bool.not_true, ite_false]
        exact ⟨_, _, rfl, rfl, rfl⟩

/-- When the analysis pass fails, `processAIAnalysis` performs exactly one
update: an error append via `pushAnalysisError`. -/
theorem processAIAnalysisStates_fail (env : PipelineEnv) (r : Recording)
    (h : analysisOk env = false) :
    ∃ msg, processAIAnalysisStates env r = [pushAnalysisError env.now msg r] := by
  unfold analysisOk at h
  unfold processAIAnalysisStates
  cases hs : analyzeSentiment env.sentimentApi with
  | error e => exact ⟨_, rfl⟩
  | ok sres =>
    rw [hs] at h
    simp only at h
    cases hsu : sres.success with
    | false => simp only [hsu, Bool.not_false, if_true]; exact ⟨_, by rfl⟩
    | true =>
      rw [hsu] at h
      simp only [Bool.true_and] at h
      cases hi : extractKeyInsights env.insightsApi with
      | error e => simp only [hsu, hi]; exact ⟨_, by rfl⟩
      | ok ires =>
        rw [hi] at h
        simp only at h
        simp only [hsu, hi, h]
        exact ⟨_, by rfl⟩

/-- Terminal state when transcription and analysis both succeed. -/
theorem pipelineFinal_ok (env : PipelineEnv) (r0 : Recording)
    (h1 : (transcribeAudio env.provider).result.success = true)
    (h2 : analysisOk env = true) :
    ∃ sres ires, analyzeSentiment env.sentimentApi = Except.ok sres ∧
      extractKeyInsights env.insightsApi = Except.ok ires ∧
      pipelineFinal env r0 =
        { transcribedRec env r0 with
            sentimentAnalysis := some (sentimentPersisted sres.result)
            keyInsights := some (ires.keyInsights.orDefault (.arr []))
            actionItems := some (ires.actionItems.orDefault (.arr [])) } := by
  obtain ⟨sres, ires, hsen, hins, hps⟩ := processAIAnalysisStates_ok env (transcribedRec env r0) h2
  refine ⟨sres, ires, hsen, hins, ?_⟩
  unfold pipelineFinal processTranscriptionStates
  simp [h1, hps, List.getLastD]

/-- Terminal state when transcription succeeds and the analysis pass fails:
the transcription-success state with one appended error. -/
theorem pipelineFinal_analysisFail (env : PipelineEnv) (r0 : Recording)
    (h1 : (transcribeAudio env.provider).result.success = true)
    (h2 : analysisOk env = false) :
    ∃ msg, pipelineFinal env r0 = pushAnalysisError env.now msg (transcribedRec env r0) := by
  obtain ⟨msg, hps⟩ := processAIAnalysisStates_fail env (transcribedRec env r0) h2
  refine ⟨msg, ?_⟩
  unfold pipelineFinal processTranscriptionStates
  simp [h1, hps, List.getLastD]

/-- Terminal state when `transcribeAudio` fails: since its failure object has
no `retryable` property, the pipeline always takes the catch-block `failed`
update. -/
theorem pipelineFinal_transcriptionFail (env : PipelineEnv) (r0 : Recording)
    (h1 : (transcribeAudio env.provider).result.success = false)
    (h2 : (transcribeAudio env.provider).result.retryable = false) :
    pipelineFinal env r0 = failedRec env r0 := by
  unfold pipelineFinal processTranscriptionStates
  simp [h1, h2, List.getLastD]

/-! ## Claim theorems -/

/-- C10: every Recording the upload handler creates has `fileType = video`
regardless of the actual extension, because `path.extname` produces a dotted
(or empty) extension string which is tested for membership in the dot-less
list `['mp3', 'wav', 'm4a']` and therefore never matches audio. -/
theorem upload_fileType_always_video (env : SubmitEnv) (req : UploadRequest)
    (f : FileInfo) (newId : Nat) :
    (mkRecording env req f newId).fileType = .video :=
  determineFileType_video f.originalname

/-- C5 (amended): an accepted non-duplicate submit creates the Recording with
status `pending`, schedules the asynchronous pipeline without applying any of
its updates, and synchronously returns HTTP 201 with the new Recording's id —
but the response body's status field is the hard-coded literal
`"processing"`, not the stored status `pending`. -/
theorem submit_creates_pending_returns_processing
    (env : SubmitEnv) (req : UploadRequest) (s : Store) (f : FileInfo)
    (hf : req.file = some f) (hacc : fileFilterAccepts f = true)
    (h1 : req.hcpName ≠ "") (h2 : req.hcpSpecialty ≠ "") (h3 : req.meetingDate ≠ "")
    (hdup : s.recs.find? (dupPred env req f.originalname) = none)
    (hst : env.storageOk = true) :
    (submit env req s).resp.httpStatus = 201 ∧
    (submit env req s).resp.transcriptId = some s.nextId ∧
    (submit env req s).resp.statusField = some "processing" ∧
    (submit env req s).store.recs = s.recs ++ [mkRecording env req f s.nextId] ∧
    (mkRecording env req f s.nextId).transcriptionStatus = .pending ∧
    (submit env req s).scheduled = some s.nextId := by
  unfold submit
  rw [hf]
  simp [hacc, h1, h2, h3, hdup, hst, mkRecording]

/-- Witness for the amended C5 theorem at a concrete accepted submit. -/
theorem submit_creates_pending_returns_processing_witness :
    (submit sampleEnv sampleReq emptyStore).resp.httpStatus = 201 ∧
    (submit sampleEnv sampleReq emptyStore).resp.transcriptId = some emptyStore.nextId ∧
    (submit sampleEnv sampleReq emptyStore).resp.statusField = some "processing" ∧
    (submit sampleEnv sampleReq emptyStore).store.recs =
      emptyStore.recs ++ [mkRecording sampleEnv sampleReq sampleFile emptyStore.nextId] ∧
    (mkRecording sampleEnv sampleReq sampleFile emptyStore.nextId).transcriptionStatus = .pending ∧
    (submit sampleEnv sampleReq emptyStore).scheduled = some emptyStore.nextId :=
  submit_creates_pending_returns_processing sampleEnv sampleReq emptyStore sampleFile
    rfl (by decide) (by decide) (by decide) (by decide) rfl rfl

/-- C5 counterexample: on a concrete accepted submit the handler returns 201
for a Recording stored as `pending`, but the response's status field is the
literal `"processing"`, contradicting the claim that the id is returned with
status `pending`. -/
theorem submit_response_not_pending_cex :
    (submit sampleEnv sampleReq emptyStore).resp.httpStatus = 201 ∧
    (submit sampleEnv sampleReq emptyStore).resp.statusField = some "processing" ∧
    (submit sampleEnv sampleReq emptyStore).resp.statusField ≠ some "pending" ∧
    (submit sampleEnv sampleReq emptyStore).store.recs.map Recording.transcriptionStatus
      = [.pending] := by
  refine ⟨rfl, rfl, ?_, rfl⟩
  intro h
  rw [show (submit sampleEnv sampleReq emptyStore).resp.statusField = some "processing" from rfl] at h
  exact absurd (Option.some_inj.mp h) (by decide)

/-- C8 counterexample: a file named `track.ogg` with mimetype `audio/mpeg`
has an extension outside the claimed whitelist (which also wrongly lists
`.mkv`), yet the submit is accepted with 201 and creates a Recording, because
`fileFilter` also accepts by mimetype alone. -/
theorem submit_accepts_unlisted_extension_cex :
    lowerStr (extname "track.ogg") = ".ogg" ∧
    ([".mp3", ".wav", ".m4a", ".mp4", ".avi", ".mov", ".mkv"] : List String).contains ".ogg"
      = false ∧
    (submit sampleEnv oggReq emptyStore).resp.httpStatus = 201 ∧
    (submit sampleEnv oggReq emptyStore).store.recs.length = 1 := by
  exact ⟨rfl, by decide, rfl, rfl⟩

/-- C8 (amended): submit rejects with HTTP 400 — creating no Recording and
scheduling no pipeline — whenever a required field is missing or the file is
rejected by `fileFilter`, i.e. its mimetype is not in `allowedTypes` AND its
extension is not in `allowedExtensions` (`.mp3 .wav .m4a .mp4 .avi .mov`; the
code's whitelist has no `.mkv`, and a whitelisted mimetype alone suffices). -/
theorem submit_validation_rejects (env : SubmitEnv) (req : UploadRequest) (s : Store)
    (h : req.hcpName = "" ∨ req.hcpSpecialty = "" ∨ req.meetingDate = "" ∨
         (∃ f, req.file = some f ∧ fileFilterAccepts f = false)) :
    (submit env req s).resp.httpStatus = 400 ∧
    (submit env req s).store = s ∧
    (submit env req s).scheduled = none := by
  unfold submit
  cases hf : req.file with
  | none => exact ⟨rfl, rfl, rfl⟩
  | some f =>
    cases hacc : fileFilterAccepts f with
    | false => simp [hacc]
    | true =>
      rcases h with h | h | h | ⟨g, hg, hgacc⟩
      · simp [hacc, h]
      · simp [hacc, h]
      · simp [hacc, h]
      · rw [hf] at hg
        have hfg : f = g := Option.some_inj.mp hg
        rw [← hfg, hacc] at hgacc
        exact absurd hgacc (by decide)

/-- Witness for the amended C8 theorem: a request missing `hcpName` is
rejected with 400 and no Recording is created. -/
theorem submit_validation_rejects_witness :
    (submit sampleEnv noNameReq emptyStore).resp.httpStatus = 400 ∧
    (submit sampleEnv noNameReq emptyStore).store = emptyStore ∧
    (submit sampleEnv noNameReq emptyStore).scheduled = none :=
  submit_validation_rejects sampleEnv noNameReq emptyStore (Or.inl rfl)

/-- Matching the duplicate query under a later clock (with the same date
parsing) implies matching it under the earlier clock: the exact-match branch
is clock-independent and a later clock only shrinks the recency window. -/
theorem dupPred_mono (env env2 : SubmitEnv) (req : UploadRequest) (fn : String)
    (r : Recording) (hp : env2.parseDate = env.parseDate) (hn : env.now ≤ env2.now)
    (h : dupPred env2 req fn r = true) : dupPred env req fn r = true := by
  unfold dupPred dupMatchExact dupMatchRecent at h ⊢
  simp only [hp] at h
  simp only [Bool.or_eq_true, Bool.and_eq_true, decide_eq_true_eq] at h ⊢
  rcases h with h | ⟨h1, h2⟩
  · exact Or.inl h
  · exact Or.inr ⟨h1, by omega⟩

/-- C3: a submit whose file name + date + subject match an existing Recording
(or whose file name matches per the recency branch) returns HTTP 200 with an
existing matching Recording's id and current status and changes nothing; and
resubmitting an identical request after a successful creation (same or later
clock, same date parsing) returns the same recordingId with 200, so exactly
one Recording is created across both submits. -/
theorem submit_dedup_idempotent :
    (∀ (env : SubmitEnv) (req : UploadRequest) (s : Store) (f : FileInfo),
      req.file = some f → fileFilterAccepts f = true →
      req.hcpName ≠ "" → req.hcpSpecialty ≠ "" → req.meetingDate ≠ "" →
      (∃ r ∈ s.recs, dupPred env req f.originalname r = true) →
      (submit env req s).resp.httpStatus = 200 ∧
      (submit env req s).store = s ∧
      (submit env req s).scheduled = none ∧
      ∃ r ∈ s.recs, dupPred env req f.originalname r = true ∧
        (submit env req s).resp.transcriptId = some r.id ∧
        (submit env req s).resp.statusField = some (statusStr r.transcriptionStatus)) ∧
    (∀ (env env2 : SubmitEnv) (req : UploadRequest) (s : Store),
      env2.parseDate = env.parseDate → env.now ≤ env2.now →
      (submit env req s).resp.httpStatus = 201 →
      (submit env req s).store.recs.length = s.recs.length + 1 ∧
      (submit env2 req (submit env req s).store).resp.httpStatus = 200 ∧
      (submit env2 req (submit env req s).store).resp.transcriptId
        = (submit env req s).resp.transcriptId ∧
      (submit env2 req (submit env req s).store).store = (submit env req s).store) := by
  constructor
  · intro env req s f hf hacc h1 h2 h3 hex
    have hne : s.recs.find? (dupPred env req f.originalname) ≠ none := by
      intro hnone
      obtain ⟨r, hr, hpr⟩ := hex
      exact absurd hpr (by simpa using List.find?_eq_none.mp hnone r hr)
    obtain ⟨ex, hexq⟩ := Option.ne_none_iff_exists'.mp hne
    have hmem := List.mem_of_find?_eq_some hexq
    have hprop := List.find?_some hexq
    unfold submit
    rw [hf]
    simp only [hacc, Bool.not_true, Bool.false_eq_true, if_false, ite_false, hexq]
    refine ?_
    have hcond : (decide (req.hcpName = "") || decide (req.hcpSpecialty = "")
        || decide (req.meetingDate = "")) = false := by
      simp [h1, h2, h3]
    simp only [hcond, Bool.false_eq_true, if_false]
    exact ⟨rfl, rfl, rfl, ex, hmem, hprop, rfl, rfl⟩
  · intro env env2 req s hp hn h201
    cases hf : req.file with
    | none => exfalso; unfold submit at h201; rw [hf] at h201; simp at h201
    | some f =>
      cases hacc : fileFilterAccepts f with
      | false =>
        exfalso; unfold submit at h201; rw [hf] at h201; simp [hacc] at h201
      | true =>
        by_cases hn1 : req.hcpName = ""
        · exfalso; unfold submit at h201; rw [hf] at h201; simp [hacc, hn1] at h201
        by_cases hn2 : req.hcpSpecialty = ""
        · exfalso; unfold submit at h201; rw [hf] at h201; simp [hacc, hn1, hn2] at h201
        by_cases hn3 : req.meetingDate = ""
        · exfalso; unfold submit at h201; rw [hf] at h201; simp [hacc, hn1, hn2, hn3] at h201
        cases hdup : s.recs.find? (dupPred env req f.originalname) with
        | some ex =>
          exfalso; unfold submit at h201; rw [hf] at h201
          simp [hacc, hn1, hn2, hn3, hdup] at h201
        | none =>
          cases hst : env.storageOk with
          | false =>
            exfalso; unfold submit at h201; rw [hf] at h201
            simp [hacc, hn1, hn2, hn3, hdup, hst] at h201
          | true =>
            have hidp : (submit env req s).resp.transcriptId = some s.nextId := by
              unfold submit; rw [hf]; simp [hacc, hn1, hn2, hn3, hdup, hst, mkRecording]
            have hstore : (submit env req s).store.recs
                = s.recs ++ [mkRecording env req f s.nextId] := by
              unfold submit; rw [hf]; simp [hacc, hn1, hn2, hn3, hdup, hst]
            have hnone2 : s.recs.find? (dupPred env2 req f.originalname) = none := by
              rw [List.find?_eq_none]
              intro r hr hcon
              exact absurd (dupPred_mono env env2 req f.originalname r hp hn hcon)
                (by simpa using List.find?_eq_none.mp hdup r hr)
            have hnew : dupPred env2 req f.originalname (mkRecording env req f s.nextId)
                = true := by
              unfold dupPred dupMatchExact mkRecording
              simp [hp]
            have hfind2 : (submit env req s).store.recs.find? (dupPred env2 req f.originalname)
                = some (mkRecording env req f s.nextId) := by
              rw [hstore, List.find?_append, hnone2]
              simp [List.find?_cons, hnew]
            set out := submit env req s with hout
            refine ⟨by rw [hstore]; simp, ?_, ?_, ?_⟩
            · unfold submit; rw [hf]; simp [hacc, hn1, hn2, hn3, hfind2]
            · unfold submit; rw [hf]
              simp [hacc, hn1, hn2, hn3, hfind2, hidp, mkRecording]
            · unfold submit; rw [hf]; simp [hacc, hn1, hn2, hn3, hfind2]

/-- Witness for C3: submitting `meeting1.mp3` twice (30 s apart) returns the
same id, 200 on the second call, and leaves the single created Recording as
the only one. -/
theorem submit_dedup_idempotent_witness :
    (submit sampleEnvLater sampleReq (submit sampleEnv sampleReq emptyStore).store).resp.httpStatus
      = 200 ∧
    (submit sampleEnvLater sampleReq (submit sampleEnv sampleReq emptyStore).store).resp.transcriptId
      = (submit sampleEnv sampleReq emptyStore).resp.transcriptId ∧
    (submit sampleEnv sampleReq emptyStore).store.recs.length = emptyStore.recs.length + 1 ∧
    (submit sampleEnvLater sampleReq (submit sampleEnv sampleReq emptyStore).store).store
      = (submit sampleEnv sampleReq emptyStore).store ∧
    (submit sampleEnvLater sampleReq (submit sampleEnv sampleReq emptyStore).store).scheduled
      = none := by
  have h2 := submit_dedup_idempotent.2 sampleEnv sampleEnvLater sampleReq emptyStore
    rfl (by decide) rfl
  have h1 := submit_dedup_idempotent.1 sampleEnvLater sampleReq
    (submit sampleEnv sampleReq emptyStore).store sampleFile rfl (by decide) (by decide)
    (by decide) (by decide)
    ⟨sampleRec, List.mem_singleton.mpr rfl, by decide⟩
  exact ⟨h2.2.1, h2.2.2.1, h2.1, h2.2.2.2, h1.2.2.1⟩

/-- C6 counterexample: a Recording in status `failed` whose stored file no
longer exists is not retried — the route answers 404 and does not re-enter
transcription — so `failed`/`retryable_failed` status alone is not sufficient
for the retry operation to succeed. -/
theorem retry_failed_without_file_cex :
    (findRec failedStore 7).map Recording.transcriptionStatus = some .failed ∧
    (retryRoute failedStore 7 false).scheduled = false ∧
    (retryRoute failedStore 7 false).httpStatus = 404 := ⟨rfl, rfl, rfl⟩

/-- C6 (amended): retry re-enters transcription iff the Recording's status is
`failed` or `retryable_failed` AND the originally stored file still exists
(otherwise 404); on any other status it answers HTTP 400 and the handler
leaves the store unchanged. -/
theorem retry_state_machine (s : Store) (id : Nat) (fe : Bool) (t : Recording)
    (hfind : findRec s id = some t) :
    ((retryRoute s id fe).scheduled = true ↔
      ((t.transcriptionStatus = .failed ∨ t.transcriptionStatus = .retryableFailed) ∧
        fe = true)) ∧
    (t.transcriptionStatus ≠ .failed → t.transcriptionStatus ≠ .retryableFailed →
      (retryRoute s id fe).httpStatus = 400 ∧ (retryRoute s id fe).store = s ∧
      (retryRoute s id fe).scheduled = false) := by
  unfold retryRoute
  rw [hfind]
  dsimp only
  by_cases hr : t.transcriptionStatus ≠ .retryableFailed ∧ t.transcriptionStatus ≠ .failed
  · rw [if_pos hr]
    refine ⟨iff_of_false (by simp) ?_, fun _ _ => ⟨rfl, rfl, rfl⟩⟩
    rintro ⟨h | h, _⟩
    · exact hr.2 h
    · exact hr.1 h
  · rw [if_neg hr]
    refine ⟨?_, fun h1 h2 => absurd ⟨h2, h1⟩ hr⟩
    cases fe with
    | false =>
      rw [if_pos (by simp)]
      exact iff_of_false (by simp) (by rintro ⟨_, h⟩; exact absurd h (by simp))
    | true =>
      rw [if_neg (by simp)]
      refine iff_of_true rfl ⟨?_, rfl⟩
      rcases not_and_or.mp hr with h | h
      · exact Or.inr (not_not.mp h)
      · exact Or.inl (not_not.mp h)

/-- Witness for the amended C6 theorem: retry on a `completed` Recording is
refused with 400, schedules nothing, and changes nothing. -/
theorem retry_state_machine_witness :
    ((retryRoute completedStore 7 true).scheduled = true ↔
      ((completedRec.transcriptionStatus = .failed ∨
        completedRec.transcriptionStatus = .retryableFailed) ∧ true = true)) ∧
    (completedRec.transcriptionStatus ≠ .failed →
      completedRec.transcriptionStatus ≠ .retryableFailed →
      (retryRoute completedStore 7 true).httpStatus = 400 ∧
      (retryRoute completedStore 7 true).store = completedStore ∧
      (retryRoute completedStore 7 true).scheduled = false) :=
  retry_state_machine completedStore 7 true completedRec rfl

/-- C1 counterexample: on a concrete run where transcription succeeds and the
sentiment SDK call throws, the Recording ends in status `completed` although
the analysis step never succeeded (no analysis result was persisted). -/
theorem completed_before_analysis_cex :
    (pipelineFinal analysisFailEnv sampleRec).transcriptionStatus = .completed ∧
    (pipelineFinal analysisFailEnv sampleRec).sentimentAnalysis = none ∧
    (pipelineFinal analysisFailEnv sampleRec).keyInsights = none := ⟨rfl, rfl, rfl⟩

/-- C1 (amended): the status becomes `completed` as soon as the transcription
step succeeds — before the analysis step runs — and every later state of the
run (including after analysis success or failure) keeps status `completed`;
analysis success is not required for `completed`. -/
theorem completed_on_transcription_success (env : PipelineEnv) (r0 : Recording)
    (h : (transcribeAudio env.provider).result.success = true) :
    ∀ r ∈ (processTranscriptionStates env r0).drop 1, r.transcriptionStatus = .completed := by
  intro r hr
  unfold processTranscriptionStates at hr
  simp only [h, if_true, List.drop_succ_cons, List.drop_zero] at hr
  rcases List.mem_cons.mp hr with rfl | hr2
  · rfl
  · cases ho : analysisOk env with
    | false =>
      obtain ⟨msg, hps⟩ := processAIAnalysisStates_fail env (transcribedRec env r0) ho
      rw [hps, List.mem_singleton] at hr2
      subst hr2
      rfl
    | true =>
      obtain ⟨sres, ires, hsen, hins, hps⟩ :=
        processAIAnalysisStates_ok env (transcribedRec env r0) ho
      rw [hps, List.mem_singleton] at hr2
      subst hr2
      rfl

/-- Witness for the amended C1 theorem: a concrete run whose transcription
succeeds has every post-transcription state in status `completed`. -/
theorem completed_on_transcription_success_witness :
    (transcribeAudio analysisFailEnv.provider).result.success = true ∧
    ∀ r ∈ (processTranscriptionStates analysisFailEnv sampleRec).drop 1,
      r.transcriptionStatus = .completed :=
  ⟨rfl, completed_on_transcription_success analysisFailEnv sampleRec rfl⟩

/-- C2 counterexample: on a concrete run where transcription succeeds (text
`"hello world"`) and analysis fails, an error entry is appended and the
transcript is kept, but the status stays `completed` — it is not transitioned
to `failed` as the claim states. -/
theorem analysis_failure_not_failed_cex :
    (transcribeAudio analysisFailEnv.provider).result.success = true ∧
    analysisOk analysisFailEnv = false ∧
    (pipelineFinal analysisFailEnv sampleRec).transcriptionStatus = .completed ∧
    (pipelineFinal analysisFailEnv sampleRec).transcriptionStatus ≠ .failed ∧
    (pipelineFinal analysisFailEnv sampleRec).processingErrors.length = 1 ∧
    (pipelineFinal analysisFailEnv sampleRec).rawTranscript = "hello world" := by
  have hst : (pipelineFinal analysisFailEnv sampleRec).transcriptionStatus = .completed := rfl
  refine ⟨rfl, rfl, hst, ?_, rfl, rfl⟩
  rw [hst]
  decide

/-- C2 (amended): when transcription succeeds and the analysis pass fails,
exactly one entry is appended to `processingErrors` and the transcript stays
persisted, but the status remains `completed` (set by the transcription step);
the analysis catch block performs no status transition. -/
theorem analysis_failure_appends_error (env : PipelineEnv) (r0 : Recording)
    (h1 : (transcribeAudio env.provider).result.success = true)
    (h2 : analysisOk env = false) :
    (pipelineFinal env r0).transcriptionStatus = .completed ∧
    (pipelineFinal env r0).rawTranscript = (transcribeAudio env.provider).result.text ∧
    ((transcribeAudio env.provider).result.text ≠ "" →
      (pipelineFinal env r0).rawTranscript ≠ "") ∧
    (pipelineFinal env r0).processingErrors.length = r0.processingErrors.length + 1 := by
  obtain ⟨msg, hps⟩ := pipelineFinal_analysisFail env r0 h1 h2
  rw [hps]
  refine ⟨rfl, rfl, fun h => h, ?_⟩
  simp [pushAnalysisError, transcribedRec, startedRec]

/-- Witness for the amended C2 theorem at the concrete failing-analysis run. -/
theorem analysis_failure_appends_error_witness :
    (pipelineFinal analysisFailEnv sampleRec).transcriptionStatus = .completed ∧
    (pipelineFinal analysisFailEnv sampleRec).rawTranscript
      = (transcribeAudio analysisFailEnv.provider).result.text ∧
    ((transcribeAudio analysisFailEnv.provider).result.text ≠ "" →
      (pipelineFinal analysisFailEnv sampleRec).rawTranscript ≠ "") ∧
    (pipelineFinal analysisFailEnv sampleRec).processingErrors.length
      = sampleRec.processingErrors.length + 1 :=
  analysis_failure_appends_error analysisFailEnv sampleRec rfl rfl

/-- Closed form of the two-attempt retry loop of `transcribeAudio`: success on
the first call ends with 1 call; a network error on the first call triggers
exactly one 1000 ms backoff and a second call, whose outcome is final; a
non-network first error fails immediately. The failure result never carries a
`retryable` flag. -/
theorem transcribeAudio_eq (p : Nat → ProviderOutcome) :
    transcribeAudio p =
      match p 0 with
      | .ok text duration confidence =>
        { result := { success := true, text := text, duration := duration
                      confidence := confidence }
          calls := 1, waits := [] }
      | .err e =>
        if isNetworkError e = true then
          match p 1 with
          | .ok text duration confidence =>
            { result := { success := true, text := text, duration := duration
                          confidence := confidence }
              calls := 2, waits := [1000] }
          | .err e2 =>
            { result := { success := false, error := e2.message }
              calls := 2, waits := [1000] }
        else
          { result := { success := false, error := e.message }, calls := 1, waits := [] } := by
  cases hp0 : p 0 with
  | ok t d c => simp [transcribeAudio, transcribeLoop, maxRetries, hp0]
  | err e =>
    by_cases hne : isNetworkError e = true
    · cases hp1 : p 1 with
      | ok t d c => simp [transcribeAudio, transcribeLoop, maxRetries, hp0, hp1, hne]
      | err e2 => simp [transcribeAudio, transcribeLoop, maxRetries, hp0, hp1, hne]
    · simp [transcribeAudio, transcribeLoop, maxRetries, hp0, hne]

/-- C4 counterexample: with a provider that fails retryably on attempts 0 and
1 and would succeed on attempt 2, the loop (capped at `maxRetries = 2`) never
makes a third attempt: transcription fails, and since the failure object has
no `retryable` flag the Recording ends `failed` with one error entry — not
`completed`, and not `retryable_failed` with 3 entries. -/
theorem retry_cap_two_attempts_cex :
    (transcribeAudio thirdTryOk).calls = 2 ∧
    (transcribeAudio thirdTryOk).result.success = false ∧
    (pipelineFinal thirdTryEnv sampleRec).transcriptionStatus = .failed ∧
    (pipelineFinal thirdTryEnv sampleRec).transcriptionStatus ≠ .completed ∧
    (pipelineFinal thirdTryEnv sampleRec).transcriptionStatus ≠ .retryableFailed ∧
    (pipelineFinal thirdTryEnv sampleRec).processingErrors.length = 1 := by
  have hst : (pipelineFinal thirdTryEnv sampleRec).transcriptionStatus = .failed := rfl
  refine ⟨rfl, rfl, hst, ?_, ?_, rfl⟩
  · rw [hst]; decide
  · rw [hst]; decide

/-- C4 (amended): `transcribeAudio` retries only on network-class errors with
exponential backoff (`1000 * 2 ^ attempt` ms) and at most 2 attempts in
total. A non-network first error fails with a single call; a network error
then success on the second attempt succeeds after one 1000 ms backoff (and,
when the analysis pass also succeeds, the Recording ends `completed` with no
error entries); when both attempts fail the result carries no `retryable`
flag, so the Recording ends `failed` — never `retryable_failed` — with
exactly one entry appended to `processingErrors`. -/
theorem transcribe_retry_behaviour
    (pN pS pF : Nat → ProviderOutcome) (envS envF : PipelineEnv) (r0 : Recording)
    (eN : JsError) (hN0 : pN 0 = .err eN) (hNnet : isNetworkError eN = false)
    (eS : JsError) (tS : String) (dS cS : Nat)
    (hS0 : pS 0 = .err eS) (hSnet : isNetworkError eS = true) (hS1 : pS 1 = .ok tS dS cS)
    (eF0 eF1 : JsError) (hF0 : pF 0 = .err eF0) (hFnet : isNetworkError eF0 = true)
    (hF1 : pF 1 = .err eF1)
    (henvS : envS.provider = pS) (hAS : analysisOk envS = true)
    (henvF : envF.provider = pF) :
    ((transcribeAudio pN).calls = 1 ∧ (transcribeAudio pN).waits = [] ∧
      (transcribeAudio pN).result.success = false) ∧
    ((transcribeAudio pS).calls = 2 ∧ (transcribeAudio pS).waits = [1000] ∧
      (transcribeAudio pS).result.success = true ∧
      (pipelineFinal envS r0).transcriptionStatus = .completed ∧
      (pipelineFinal envS r0).processingErrors = r0.processingErrors) ∧
    ((transcribeAudio pF).calls = 2 ∧ (transcribeAudio pF).waits = [1000] ∧
      (transcribeAudio pF).result.success = false ∧
      (transcribeAudio pF).result.retryable = false ∧
      (pipelineFinal envF r0).transcriptionStatus = .failed ∧
      (pipelineFinal envF r0).processingErrors.length = r0.processingErrors.length + 1) := by
  have hN : transcribeAudio pN =
      { result := { success := false, error := eN.message }, calls := 1, waits := [] } := by
    rw [transcribeAudio_eq pN, hN0]
    simp [hNnet]
  have hS : transcribeAudio pS =
      { result := { success := true, text := tS, duration := dS, confidence := cS }
        calls := 2, waits := [1000] } := by
    rw [transcribeAudio_eq pS, hS0]
    simp [hSnet, hS1]
  have hF : transcribeAudio pF =
      { result := { success := false, error := eF1.message }, calls := 2, waits := [1000] } := by
    rw [transcribeAudio_eq pF, hF0]
    simp [hFnet, hF1]
  refine ⟨⟨by rw [hN], by rw [hN], by rw [hN]⟩, ⟨by rw [hS], by rw [hS], by rw [hS], ?_, ?_⟩,
    ⟨by rw [hF], by rw [hF], by rw [hF], by rw [hF], ?_, ?_⟩⟩
  · obtain ⟨sres, ires, hsen, hins, hfin⟩ :=
      pipelineFinal_ok envS r0 (by rw [henvS, hS]) hAS
    rw [hfin]
    rfl
  · obtain ⟨sres, ires, hsen, hins, hfin⟩ :=
      pipelineFinal_ok envS r0 (by rw [henvS, hS]) hAS
    rw [hfin]
    rfl
  · rw [pipelineFinal_transcriptionFail envF r0 (by rw [henvF, hF]) (by rw [henvF, hF])]
    rfl
  · rw [pipelineFinal_transcriptionFail envF r0 (by rw [henvF, hF]) (by rw [henvF, hF])]
    simp [failedRec, startedRec]

/-- Witness for the amended C4 theorem at concrete providers: a hard failure,
a network-error-then-success provider, and an always-network-failing one. -/
theorem transcribe_retry_behaviour_witness :
    ((transcribeAudio alwaysHardFail).calls = 1 ∧ (transcribeAudio alwaysHardFail).waits = [] ∧
      (transcribeAudio alwaysHardFail).result.success = false) ∧
    ((transcribeAudio secondTryOk).calls = 2 ∧ (transcribeAudio secondTryOk).waits = [1000] ∧
      (transcribeAudio secondTryOk).result.success = true ∧
      (pipelineFinal secondTryEnv sampleRec).transcriptionStatus = .completed ∧
      (pipelineFinal secondTryEnv sampleRec).processingErrors = sampleRec.processingErrors) ∧
    ((transcribeAudio alwaysNetFail).calls = 2 ∧ (transcribeAudio alwaysNetFail).waits = [1000] ∧
      (transcribeAudio alwaysNetFail).result.success = false ∧
      (transcribeAudio alwaysNetFail).result.retryable = false ∧
      (pipelineFinal alwaysNetFailEnv sampleRec).transcriptionStatus = .failed ∧
      (pipelineFinal alwaysNetFailEnv sampleRec).processingErrors.length
        = sampleRec.processingErrors.length + 1) :=
  transcribe_retry_behaviour alwaysHardFail secondTryOk alwaysNetFail
    secondTryEnv alwaysNetFailEnv sampleRec
    badRequestError rfl (by decide) netError "hi" 42 0 rfl (by decide) rfl
    netError netError rfl (by decide) rfl rfl rfl rfl

/-- C7: when the Analysis Provider's insights response is a non-list
`keyInsights` (a malformed string, a non-array value, a missing field, or an
unparseable body), the service coerces the field to `[]` and the pipeline
persists `keyInsights = some []` on the Recording, still reaching status
`completed` rather than failing. -/
theorem malformed_insights_coerced_empty (env : PipelineEnv) (r0 : Recording)
    (content : Option Json)
    (h1 : (transcribeAudio env.provider).result.success = true)
    (h2 : env.insightsApi = .ok content)
    (h3 : keyInsightsFieldIsArray content = false)
    (h4 : analysisOk env = true) :
    (pipelineFinal env r0).keyInsights = some (.arr []) ∧
    (pipelineFinal env r0).transcriptionStatus = .completed := by
  obtain ⟨sres, ires, hsen, hins, hfin⟩ := pipelineFinal_ok env r0 h1 h4
  have hki : ires.keyInsights = .arr [] := by
    rw [h2] at hins
    unfold extractKeyInsights at hins
    injection hins with h5
    rw [← h5]
    cases content with
    | none => rfl
    | some j =>
      dsimp only
      simp only [Option.getD_some]
      unfold keyInsightsFieldIsArray at h3
      simp only at h3
      cases hg : j.getField "keyInsights" with
      | none => simp [hg]
      | some v =>
        cases v with
        | arr xs => rw [hg] at h3; simp at h3
        | str sv => simp [hg]
        | num nv => simp [hg]
        | bool bv => simp [hg]
        | null => simp [hg]
        | obj fs => simp [hg]
  rw [hfin, hki]
  exact ⟨rfl, rfl⟩

/-- Witness for C7 at a provider response whose `keyInsights` is the string
`"oops"`. -/
theorem malformed_insights_coerced_empty_witness :
    (pipelineFinal badInsightsEnv sampleRec).keyInsights = some (.arr []) ∧
    (pipelineFinal badInsightsEnv sampleRec).transcriptionStatus = .completed :=
  malformed_insights_coerced_empty badInsightsEnv sampleRec badInsightsContent
    rfl rfl rfl rfl

/-- C9: along every state of a pipeline run, sentiment, insights and action
items from the analysis pass are either all absent or all present — they are
persisted by one single update, so a polling reader never observes sentiment
from a pass without its insights or vice versa. -/
theorem analysis_results_atomic (env : PipelineEnv) (r0 : Recording)
    (h1 : r0.sentimentAnalysis.isSome = r0.keyInsights.isSome)
    (h2 : r0.keyInsights.isSome = r0.actionItems.isSome) :
    ∀ r ∈ processTranscriptionStates env r0,
      r.sentimentAnalysis.isSome = r.keyInsights.isSome ∧
      r.keyInsights.isSome = r.actionItems.isSome := by
  intro r hr
  unfold processTranscriptionStates at hr
  by_cases hs : (transcribeAudio env.provider).result.success = true
  · simp only [hs, if_true] at hr
    rcases List.mem_cons.mp hr with rfl | hr2
    · exact ⟨h1, h2⟩
    rcases List.mem_cons.mp hr2 with rfl | hr3
    · exact ⟨h1, h2⟩
    cases ho : analysisOk env with
    | false =>
      obtain ⟨msg, hps⟩ := processAIAnalysisStates_fail env (transcribedRec env r0) ho
      rw [hps, List.mem_singleton] at hr3
      subst hr3
      exact ⟨h1, h2⟩
    | true =>
      obtain ⟨sres, ires, hsen, hins, hps⟩ :=
        processAIAnalysisStates_ok env (transcribedRec env r0) ho
      rw [hps, List.mem_singleton] at hr3
      subst hr3
      exact ⟨rfl, rfl⟩
  · simp only [hs, Bool.false_eq_true, if_false] at hr
    by_cases hrt : (transcribeAudio env.provider).result.retryable = true
    · simp only [hrt, if_true] at hr
      rcases List.mem_cons.mp hr with rfl | hr2
      · exact ⟨h1, h2⟩
      rcases List.mem_singleton.mp hr2 with rfl
      exact ⟨h1, h2⟩
    · simp only [hrt, Bool.false_eq_true, if_false] at hr
      rcases List.mem_cons.mp hr with rfl | hr2
      · exact ⟨h1, h2⟩
      rcases List.mem_singleton.mp hr2 with rfl
      exact ⟨h1, h2⟩

/-- Witness for C9 on the fully successful concrete run: both the
post-transcription state and the final persisted state have sentiment,
insights and action items all absent or all present. -/
theorem analysis_results_atomic_witness :
    ((transcribedRec happyEnv sampleRec).sentimentAnalysis.isSome
        = (transcribedRec happyEnv sampleRec).keyInsights.isSome ∧
      (transcribedRec happyEnv sampleRec).keyInsights.isSome
        = (transcribedRec happyEnv sampleRec).actionItems.isSome) ∧
    ((pipelineFinal happyEnv sampleRec).sentimentAnalysis.isSome
        = (pipelineFinal happyEnv sampleRec).keyInsights.isSome ∧
      (pipelineFinal happyEnv sampleRec).keyInsights.isSome
        = (pipelineFinal happyEnv sampleRec).actionItems.isSome) := by
  have h := analysis_results_atomic happyEnv sampleRec rfl rfl
  refine ⟨h _ ?_, h _ ?_⟩
  · exact List.mem_cons_of_mem _ (List.mem_cons_self _ _)
  · exact List.mem_cons_of_mem _ (List.mem_cons_of_mem _ (List.mem_singleton.mpr rfl))
